import Mathlib

/-!
Shallow embedding of the ping-monitor repository (src/config.rs, src/monitor.rs).

Modelling conventions:
- `u64` counters are modelled as `Nat`: the counters only ever grow by one per
  check, and Rust integer overflow is a panic (debug profile), not a defined
  further transition.
- `f64` arithmetic on `uptime_percentage` is modelled over `ℚ`: the code only
  computes `(successful as f64 / total as f64) * 100.0`, embedded as the exact
  rational expression.
- `DateTime<Utc>` timestamps (`Utc::now()`) are modelled as an abstract `Nat`
  clock value passed in as an argument.
- `Uuid` identifiers are modelled as `Nat`.
- The `log::info!`/`log::warn!` state-transition log lines in
  `SystemStatus::update_status` are modelled as an emitted
  `Option TransitionEvent` value.
- The `DashMap`s of `MonitorManager` are modelled as association lists with
  unique keys; `DashMap::remove` of a key is modelled as filtering that key out.
-/

namespace PingMonitor

/-- `Protocol` enum from config.rs. -/
inductive Protocol
  | ping
  | tcp
  | udp
deriving DecidableEq, Repr

/-- `SystemConfig` struct from config.rs. -/
structure SystemConfig where
  name : String
  host : String
  port : Option Nat
  protocol : Protocol
  enabled : Bool
deriving DecidableEq, Repr

/-- `Config` struct from config.rs. -/
structure Config where
  systems : List SystemConfig
  check_interval_seconds : Nat
  timeout_seconds : Nat
deriving DecidableEq, Repr

/-- `impl Default for Config` from config.rs: empty system list, 30 s check
interval, 5 s timeout. -/
def Config.default : Config :=
  { systems := []
    check_interval_seconds := 30
    timeout_seconds := 5 }

/-- The state-transition events `update_status` logs: `"{} is now ONLINE"`
(log::info) and `"{} is now OFFLINE"` (log::warn). -/
inductive TransitionEvent
  | becameOnline
  | becameOffline
deriving DecidableEq, Repr

/-- `SystemStatus` struct from monitor.rs. -/
structure SystemStatus where
  id : Nat
  config : SystemConfig
  is_online : Bool
  last_check : Nat
  last_online : Option Nat
  last_offline : Option Nat
  response_time_ms : Option Nat
  uptime_percentage : ℚ
  total_checks : Nat
  successful_checks : Nat
  error_message : Option String
deriving DecidableEq, Repr

/-- `SystemStatus::new` from monitor.rs. `Uuid::new_v4()` and `Utc::now()` are
abstracted as the arguments `id` and `now`. -/
def SystemStatus.new (id : Nat) (config : SystemConfig) (now : Nat) : SystemStatus :=
  { id := id
    config := config
    is_online := false
    last_check := now
    last_online := none
    last_offline := none
    response_time_ms := none
    uptime_percentage := 0
    total_checks := 0
    successful_checks := 0
    error_message := none }

/-- `SystemStatus::update_status` from monitor.rs, with `Utc::now()` abstracted
as the argument `now` and the two transition log lines returned as an
`Option TransitionEvent`.  The field updates follow the source order:
bookkeeping fields and `total_checks` first, then the success/failure branch
(which compares against the previous `is_online`), then the commit of
`is_online`, then the recomputation of `uptime_percentage`. -/
def SystemStatus.update_status (self : SystemStatus) (is_online : Bool)
    (response_time : Option Nat) (error : Option String) (now : Nat) :
    SystemStatus × Option TransitionEvent :=
  let s1 : SystemStatus :=
    { self with
      last_check := now
      total_checks := self.total_checks + 1
      error_message := error
      response_time_ms := response_time }
  let branch : SystemStatus × Option TransitionEvent :=
    if is_online then
      ({ s1 with
          successful_checks := s1.successful_checks + 1
          last_online := some now },
       if !self.is_online then some TransitionEvent.becameOnline else none)
    else if self.is_online then
      ({ s1 with last_offline := some now }, some TransitionEvent.becameOffline)
    else
      (s1, none)
  let s2 := { branch.1 with is_online := is_online }
  let s3 :=
    { s2 with
      uptime_percentage :=
        if s2.total_checks > 0 then
          ((s2.successful_checks : ℚ) / (s2.total_checks : ℚ)) * 100
        else 0 }
  (s3, branch.2)

/-- One probe outcome as fed to `update_status` by the supervisor loop:
`(is_online, response_time, error)` from `check_system_status`, plus the
abstract clock value at the update. -/
structure CheckResult where
  is_online : Bool
  response_time : Option Nat
  error : Option String
  now : Nat
deriving DecidableEq, Repr

/-- Folding a sequence of check results into a `SystemStatus` via
`update_status`, collecting the per-step emitted event (one entry per input,
`none` when the step emitted nothing). -/
def runUpdates : SystemStatus → List CheckResult → SystemStatus × List (Option TransitionEvent)
  | s, [] => (s, [])
  | s, r :: rs =>
    let step := s.update_status r.is_online r.response_time r.error r.now
    let rest := runUpdates step.1 rs
    (rest.1, step.2 :: rest.2)

/-- Specification-side event trace over the raw boolean results: given the
previous online state, an online event is emitted exactly at a success whose
predecessor state was offline, an offline event exactly at a failure whose
predecessor state was online, and nothing otherwise. -/
def expectedEvents : Bool → List Bool → List (Option TransitionEvent)
  | _, [] => []
  | prev, r :: rs =>
    (if r && !prev then some TransitionEvent.becameOnline
     else if !r && prev then some TransitionEvent.becameOffline
     else none) :: expectedEvents r rs

/-- Specification-side count of contiguous runs of `true` in a boolean result
list (given the state preceding the list): a run starts at each `true` whose
predecessor is `false`. -/
def countTrueRuns : Bool → List Bool → Nat
  | _, [] => 0
  | prev, r :: rs => (if r && !prev then 1 else 0) + countTrueRuns r rs

/-- Specification-side count of online-to-offline boundaries in a boolean
result list (given the state preceding the list): a boundary is each `false`
whose predecessor is `true`. -/
def countTrueToFalse : Bool → List Bool → Nat
  | _, [] => 0
  | prev, r :: rs => (if !r && prev then 1 else 0) + countTrueToFalse r rs

/-- Specification-side predicate over the raw boolean results: some failed
check occurred whose preceding state was online. -/
def hadOfflineTransition : Bool → List Bool → Bool
  | _, [] => false
  | prev, r :: rs => (!r && prev) || hadOfflineTransition r rs

/-- The sleep at the bottom of the per-target loop in
`MonitorManager::start_monitoring_task`: `sleep(Duration::from_secs(30))`,
a hard-coded constant (the source comment reads `// Default check interval`). -/
def loopTickSeconds : Nat := 30

/-- One iteration of the body of the per-target loop in
`start_monitoring_task`, for the case where the target is still present in the
registry: if `config.enabled`, probe (outcome abstracted as `probe`) and fold
the result into the record; otherwise leave the record untouched.  Either way
the loop then sleeps `loopTickSeconds`.  Returns the new record, the emitted
event, and the sleep duration in seconds. -/
def supervisorTick (status : SystemStatus) (probe : CheckResult) :
    SystemStatus × Option TransitionEvent × Nat :=
  if status.config.enabled then
    let step := status.update_status probe.is_online probe.response_time probe.error probe.now
    (step.1, step.2, loopTickSeconds)
  else
    (status, none, loopTickSeconds)

/-- Lookup in an association list modelling a `DashMap`. -/
def lookupAssoc (l : List (Nat × SystemStatus)) (id : Nat) : Option SystemStatus :=
  (l.find? (fun p => p.1 == id)).map (fun p => p.2)

/-- Write-back of an updated record under its key, modelling mutation through
`systems.get_mut(&id)`. -/
def setAssoc (l : List (Nat × SystemStatus)) (id : Nat) (s : SystemStatus) :
    List (Nat × SystemStatus) :=
  l.map (fun p => if p.1 == id then (p.1, s) else p)

/-- Supervisor task liveness: the loop either continues (`running`) or has hit
the `break` (`stopped`). -/
inductive TaskState
  | running
  | stopped
deriving DecidableEq, Repr

/-- One full iteration of the loop in `start_monitoring_task` as seen from the
shared `systems` map: if `systems.get_mut(&id)` finds the record, run the tick
body on it and continue; otherwise (`// System was removed, exit task`) leave
the map untouched and `break`. -/
def supervisorStep (systems : List (Nat × SystemStatus)) (id : Nat)
    (probe : CheckResult) : List (Nat × SystemStatus) × TaskState :=
  match lookupAssoc systems id with
  | some status =>
    let tick := supervisorTick status probe
    (setAssoc systems id tick.1, TaskState.running)
  | none => (systems, TaskState.stopped)

/-- `MonitorManager` from monitor.rs: the `systems` map of records and the
`monitoring_tasks` map of join handles (a handle modelled by whether the task
has been aborted). -/
structure MonitorManager where
  systems : List (Nat × SystemStatus)
  monitoring_tasks : List (Nat × Bool)
deriving DecidableEq, Repr

/-- `MonitorManager::new`. -/
def MonitorManager.new : MonitorManager :=
  { systems := [], monitoring_tasks := [] }

/-- `MonitorManager::remove_system`: `self.systems.remove(&id)` and, when a
task handle was registered under `id`, `monitoring_tasks.remove(&id)` followed
by `task.abort()`.  On unique-key maps both removals are the filter dropping
the key. -/
def MonitorManager.remove_system (m : MonitorManager) (id : Nat) : MonitorManager :=
  { systems := m.systems.filter (fun p => p.1 != id)
    monitoring_tasks := m.monitoring_tasks.filter (fun p => p.1 != id) }

/-! ### Per-step facts about `update_status` -/

theorem update_status_total_checks (s : SystemStatus) (b : Bool) (rt : Option Nat)
    (e : Option String) (n : Nat) :
    (s.update_status b rt e n).1.total_checks = s.total_checks + 1 := by
  rcases s with ⟨i, cfg, onl, lc2, lo, loff, rt0, up, tc, sc, em⟩
  cases b <;> cases onl <;> rfl

theorem update_status_successful_checks (s : SystemStatus) (b : Bool) (rt : Option Nat)
    (e : Option String) (n : Nat) :
    (s.update_status b rt e n).1.successful_checks
      = s.successful_checks + (if b then 1 else 0) := by
  rcases s with ⟨i, cfg, onl, lc2, lo, loff, rt0, up, tc, sc, em⟩
  cases b <;> cases onl <;> rfl

theorem update_status_is_online (s : SystemStatus) (b : Bool) (rt : Option Nat)
    (e : Option String) (n : Nat) :
    (s.update_status b rt e n).1.is_online = b := by
  rcases s with ⟨i, cfg, onl, lc2, lo, loff, rt0, up, tc, sc, em⟩
  cases b <;> cases onl <;> rfl

theorem update_status_last_online_isSome (s : SystemStatus) (b : Bool) (rt : Option Nat)
    (e : Option String) (n : Nat) :
    (s.update_status b rt e n).1.last_online.isSome
      = (s.last_online.isSome || b) := by
  rcases s with ⟨i, cfg, onl, lc2, lo, loff, rt0, up, tc, sc, em⟩
  cases b <;> cases onl <;> simp [SystemStatus.update_status]

theorem update_status_last_offline_isSome (s : SystemStatus) (b : Bool) (rt : Option Nat)
    (e : Option String) (n : Nat) :
    (s.update_status b rt e n).1.last_offline.isSome
      = (s.last_offline.isSome || (!b && s.is_online)) := by
  rcases s with ⟨i, cfg, onl, lc2, lo, loff, rt0, up, tc, sc, em⟩
  cases b <;> cases onl <;> simp [SystemStatus.update_status]

theorem update_status_event (s : SystemStatus) (b : Bool) (rt : Option Nat)
    (e : Option String) (n : Nat) :
    (s.update_status b rt e n).2
      = (if b && !s.is_online then some TransitionEvent.becameOnline
         else if !b && s.is_online then some TransitionEvent.becameOffline
         else none) := by
  rcases s with ⟨i, cfg, onl, lc2, lo, loff, rt0, up, tc, sc, em⟩
  cases b <;> cases onl <;> rfl

theorem update_status_uptime (s : SystemStatus) (b : Bool) (rt : Option Nat)
    (e : Option String) (n : Nat) :
    (s.update_status b rt e n).1.uptime_percentage
      = ((s.update_status b rt e n).1.successful_checks : ℚ)
        / ((s.update_status b rt e n).1.total_checks : ℚ) * 100 := by
  rcases s with ⟨i, cfg, onl, lc2, lo, loff, rt0, up, tc, sc, em⟩
  cases b <;> cases onl <;> simp [SystemStatus.update_status]

/-! ### Generic fold preservation over `runUpdates` -/

theorem runUpdates_ind (P : SystemStatus → Prop)
    (hstep : ∀ s b rt e n, P s → P (s.update_status b rt e n).1) :
    ∀ rs s, P s → P (runUpdates s rs).1 := by
  intro rs
  induction rs with
  | nil => intro s h; exact h
  | cons r rs ih =>
    intro s h
    simp only [runUpdates]
    exact ih _ (hstep s r.is_online r.response_time r.error r.now h)

theorem update_status_uptime_consistent (s : SystemStatus) (b : Bool) (rt : Option Nat)
    (e : Option String) (n : Nat) :
    (s.update_status b rt e n).1.uptime_percentage
      = (if (s.update_status b rt e n).1.total_checks = 0 then 0
         else ((s.update_status b rt e n).1.successful_checks : ℚ)
              / ((s.update_status b rt e n).1.total_checks : ℚ) * 100) := by
  rw [if_neg (by rw [update_status_total_checks]; exact Nat.succ_ne_zero _)]
  exact update_status_uptime s b rt e n

theorem runUpdates_total_checks (rs : List CheckResult) :
    ∀ s : SystemStatus,
      ((runUpdates s rs).1).total_checks = s.total_checks + rs.length := by
  induction rs with
  | nil => intro s; rfl
  | cons r rs ih =>
    intro s
    simp only [runUpdates, List.length_cons]
    rw [ih, update_status_total_checks]
    omega

/-- Claim C1: starting from `SystemStatus::new`, after every sequence of
`update_status` calls, `uptime_percentage` equals
`successful_checks / total_checks * 100` when `total_checks > 0` and `0` when
`total_checks = 0`; it is always the value derived from the two counters,
never set independently of them. -/
theorem C1_uptime_consistent (id : Nat) (cfg : SystemConfig) (t0 : Nat)
    (rs : List CheckResult) :
    ((runUpdates (SystemStatus.new id cfg t0) rs).1).uptime_percentage
      = (if ((runUpdates (SystemStatus.new id cfg t0) rs).1).total_checks = 0 then 0
         else (((runUpdates (SystemStatus.new id cfg t0) rs).1).successful_checks : ℚ)
              / (((runUpdates (SystemStatus.new id cfg t0) rs).1).total_checks : ℚ)
              * 100) := by
  refine runUpdates_ind
    (fun s => s.uptime_percentage
      = (if s.total_checks = 0 then 0
         else (s.successful_checks : ℚ) / (s.total_checks : ℚ) * 100))
    ?_ rs _ ?_
  · intro s b rt e n _
    exact update_status_uptime_consistent s b rt e n
  · rfl

/-- Claim C2: starting from `SystemStatus::new`, after every sequence of
`update_status` calls with any mix of success and failure results,
`successful_checks ≤ total_checks`. -/
theorem C2_successful_le_total (id : Nat) (cfg : SystemConfig) (t0 : Nat)
    (rs : List CheckResult) :
    ((runUpdates (SystemStatus.new id cfg t0) rs).1).successful_checks
      ≤ ((runUpdates (SystemStatus.new id cfg t0) rs).1).total_checks := by
  refine runUpdates_ind
    (fun s => s.successful_checks ≤ s.total_checks) ?_ rs _ (Nat.le_refl 0)
  intro s b rt e n h
  rw [update_status_successful_checks, update_status_total_checks]
  cases b <;> simp <;> omega

/-- Claim C10: every `update_status` call increases `total_checks` by exactly
one and `successful_checks` by zero or one (so both counters are monotonically
non-decreasing across every sequence, and a fold of `n` results adds exactly
`n` to `total_checks`), and `last_online` / `last_offline`, once `some`, are
never reset to `none` (`isSome` after a step is the `or` of `isSome` before
with the step's set-condition). -/
theorem C10_counters_monotone (s : SystemStatus) (b : Bool) (rt : Option Nat)
    (e : Option String) (n : Nat) (rs : List CheckResult) :
    (s.update_status b rt e n).1.total_checks = s.total_checks + 1 ∧
    ((s.update_status b rt e n).1.successful_checks = s.successful_checks ∨
      (s.update_status b rt e n).1.successful_checks = s.successful_checks + 1) ∧
    (s.update_status b rt e n).1.last_online.isSome
      = (s.last_online.isSome || b) ∧
    (s.update_status b rt e n).1.last_offline.isSome
      = (s.last_offline.isSome || (!b && s.is_online)) ∧
    ((runUpdates s rs).1).total_checks = s.total_checks + rs.length := by
  refine ⟨update_status_total_checks s b rt e n, ?_,
    update_status_last_online_isSome s b rt e n,
    update_status_last_offline_isSome s b rt e n,
    runUpdates_total_checks rs s⟩
  rw [update_status_successful_checks]
  cases b <;> simp

theorem runUpdates_trace (rs : List CheckResult) :
    ∀ s : SystemStatus,
      (runUpdates s rs).2 = expectedEvents s.is_online (rs.map (fun r => r.is_online)) := by
  induction rs with
  | nil => intro s; rfl
  | cons r rs ih =>
    intro s
    simp only [runUpdates, List.map_cons, expectedEvents]
    rw [ih, update_status_is_online, update_status_event]

theorem expectedEvents_count_online (bs : List Bool) :
    ∀ prev : Bool,
      (expectedEvents prev bs).count (some TransitionEvent.becameOnline)
        = countTrueRuns prev bs := by
  induction bs with
  | nil => intro prev; rfl
  | cons b bs ih =>
    intro prev
    cases b <;> cases prev <;>
      simp [expectedEvents, countTrueRuns, List.count_cons, ih, Nat.add_comm]

theorem expectedEvents_count_offline (bs : List Bool) :
    ∀ prev : Bool,
      (expectedEvents prev bs).count (some TransitionEvent.becameOffline)
        = countTrueToFalse prev bs := by
  induction bs with
  | nil => intro prev; rfl
  | cons b bs ih =>
    intro prev
    cases b <;> cases prev <;>
      simp [expectedEvents, countTrueToFalse, List.count_cons, ih, Nat.add_comm]

/-- Claim C3: folding any sequence of check results from `SystemStatus::new`
(initially offline), the emitted event trace is exactly the specification
trace: a "became online" event exactly at each success whose preceding state
was offline (the first success of each contiguous success run), a "became
offline" event exactly at each failure whose preceding state was online (the
first failure after an online state), and no event at a check that does not
change the state; hence the number of online events equals the number of
contiguous success runs and the number of offline events equals the number of
online-to-offline boundaries. -/
theorem C3_transition_events (id : Nat) (cfg : SystemConfig) (t0 : Nat)
    (rs : List CheckResult) :
    (runUpdates (SystemStatus.new id cfg t0) rs).2
        = expectedEvents false (rs.map (fun r => r.is_online)) ∧
    ((runUpdates (SystemStatus.new id cfg t0) rs).2).count
        (some TransitionEvent.becameOnline)
      = countTrueRuns false (rs.map (fun r => r.is_online)) ∧
    ((runUpdates (SystemStatus.new id cfg t0) rs).2).count
        (some TransitionEvent.becameOffline)
      = countTrueToFalse false (rs.map (fun r => r.is_online)) := by
  have h : (runUpdates (SystemStatus.new id cfg t0) rs).2
      = expectedEvents false (rs.map (fun r => r.is_online)) :=
    runUpdates_trace rs (SystemStatus.new id cfg t0)
  refine ⟨h, ?_, ?_⟩ <;> rw [h]
  · exact expectedEvents_count_online _ false
  · exact expectedEvents_count_offline _ false

theorem runUpdates_last_online (rs : List CheckResult) :
    ∀ s : SystemStatus,
      ((runUpdates s rs).1).last_online.isSome
        = (s.last_online.isSome || (rs.map (fun r => r.is_online)).any (fun b => b)) := by
  induction rs with
  | nil => intro s; simp [runUpdates]
  | cons r rs ih =>
    intro s
    simp only [runUpdates, List.map_cons, List.any_cons]
    rw [ih, update_status_last_online_isSome]
    cases s.last_online.isSome <;> cases r.is_online <;> simp

theorem runUpdates_last_offline (rs : List CheckResult) :
    ∀ s : SystemStatus,
      ((runUpdates s rs).1).last_offline.isSome
        = (s.last_offline.isSome
           || hadOfflineTransition s.is_online (rs.map (fun r => r.is_online))) := by
  induction rs with
  | nil => intro s; simp [runUpdates, hadOfflineTransition]
  | cons r rs ih =>
    intro s
    simp only [runUpdates, List.map_cons, hadOfflineTransition]
    rw [ih, update_status_last_offline_isSome, update_status_is_online]
    cases s.last_offline.isSome <;> simp [Bool.or_assoc]

/-- Claim C6: starting from `SystemStatus::new`, after every sequence of
`update_status` calls, `last_online` is `some` exactly when at least one
successful check occurred, and `last_offline` is `some` exactly when at least
one failed check occurred whose preceding state was online. -/
theorem C6_last_timestamps_iff (id : Nat) (cfg : SystemConfig) (t0 : Nat)
    (rs : List CheckResult) :
    ((runUpdates (SystemStatus.new id cfg t0) rs).1).last_online.isSome
        = (rs.map (fun r => r.is_online)).any (fun b => b) ∧
    ((runUpdates (SystemStatus.new id cfg t0) rs).1).last_offline.isSome
        = hadOfflineTransition false (rs.map (fun r => r.is_online)) := by
  constructor
  · rw [runUpdates_last_online]
    simp [SystemStatus.new]
  · rw [runUpdates_last_offline]
    simp [SystemStatus.new]

/-- Claim C4 counterexample: the claim asserts the tick duration of the
per-target loop equals the configuration's `check_interval_seconds`;
at the concrete configuration with `check_interval_seconds = 10` the loop's
hard-coded 30-second tick differs from it. -/
theorem C4_counterexample :
    ¬ loopTickSeconds
        = (Config.mk [] 10 5).check_interval_seconds := by
  decide

/-- Claim C4 (amended): the per-target loop sleeps a hard-coded
`loopTickSeconds = 30` seconds on every tick, for every target and every probe
outcome, independent of any `Config` value; 30 merely coincides with the
default configuration's `check_interval_seconds`. -/
theorem C4_amended_tick_hardcoded (status : SystemStatus) (probe : CheckResult) :
    (supervisorTick status probe).2.2 = loopTickSeconds ∧
    loopTickSeconds = 30 ∧
    Config.default.check_interval_seconds = loopTickSeconds := by
  refine ⟨?_, rfl, rfl⟩
  unfold supervisorTick
  split <;> rfl

/-- Claim C5: after `remove_system id`, the id is absent from the `systems`
map, and the supervisor loop bound to that id, on its next iteration, finds
the target missing and stops (`break`), leaving the whole map of records
untouched — so no step after removal mutates any record. -/
theorem C5_removed_supervisor_stops (m : MonitorManager) (id : Nat)
    (probe : CheckResult) :
    lookupAssoc (m.remove_system id).systems id = none ∧
    supervisorStep (m.remove_system id).systems id probe
      = ((m.remove_system id).systems, TaskState.stopped) := by
  have hf : ((m.remove_system id).systems).find? (fun p => p.1 == id) = none := by
    rw [List.find?_eq_none]
    intro p hp
    simpa using List.of_mem_filter hp
  have hlook : lookupAssoc (m.remove_system id).systems id = none := by
    unfold lookupAssoc
    rw [hf]
    rfl
  exact ⟨hlook, by simp [supervisorStep, hlook]⟩

/-- Claim C7: when a target's `enabled` flag is false, a supervisor tick
performs no probe and leaves its `SystemStatus` record completely unchanged
(no counters, timestamps, error, latency or online flag touched), emits no
event, and still sleeps the full `loopTickSeconds` interval. -/
theorem C7_disabled_tick_noop (status : SystemStatus) (probe : CheckResult)
    (h : status.config.enabled = false) :
    supervisorTick status probe = (status, none, loopTickSeconds) := by
  simp [supervisorTick, h]

theorem C7_disabled_tick_noop_witness :
    supervisorTick
        (SystemStatus.new 0
          (SystemConfig.mk "Local HTTP" "127.0.0.1" (some 80) Protocol.tcp false) 0)
        (CheckResult.mk true (some 1) none 5)
      = (SystemStatus.new 0
          (SystemConfig.mk "Local HTTP" "127.0.0.1" (some 80) Protocol.tcp false) 0,
         none, loopTickSeconds) :=
  C7_disabled_tick_noop _ _ rfl

/-- Claim C8: removing an id that is present in neither the `systems` map nor
the `monitoring_tasks` map is a no-op (both maps unchanged, no error), and
removing the same id twice gives the same state as removing it once. -/
theorem C8_remove_unknown_noop (m : MonitorManager) (id : Nat)
    (h1 : ∀ p ∈ m.systems, p.1 ≠ id)
    (h2 : ∀ p ∈ m.monitoring_tasks, p.1 ≠ id) :
    m.remove_system id = m ∧
    (m.remove_system id).remove_system id = m.remove_system id := by
  have hs : m.systems.filter (fun p => p.1 != id) = m.systems :=
    List.filter_eq_self.mpr (fun p hp => by simpa using h1 p hp)
  have ht : m.monitoring_tasks.filter (fun p => p.1 != id) = m.monitoring_tasks :=
    List.filter_eq_self.mpr (fun p hp => by simpa using h2 p hp)
  have he : m.remove_system id = m := by
    unfold MonitorManager.remove_system
    rw [hs, ht]
  exact ⟨he, by rw [he]; exact he⟩

theorem C8_remove_unknown_noop_witness :
    MonitorManager.new.remove_system 7 = MonitorManager.new ∧
    (MonitorManager.new.remove_system 7).remove_system 7
      = MonitorManager.new.remove_system 7 :=
  C8_remove_unknown_noop MonitorManager.new 7
    (fun p hp => absurd hp (List.not_mem_nil p))
    (fun p hp => absurd hp (List.not_mem_nil p))

end PingMonitor
